import Mathlib

/-!
Shallow embedding of the resume-analysis engine of `src/app/page.tsx`
(class `ResumeAnalysisService`), together with the data model it operates on.

Modelling conventions, justified against JavaScript semantics:

* JS strings are modelled as Lean `String` (a list of characters).  All the
  inputs the claims exercise are plain ASCII, where JS UTF-16 code-unit
  lengths coincide with character counts.
* The regex `\w` (no flags) matches exactly `[A-Za-z0-9_]`; `\s` matches
  whitespace.  We model `\s` by the six ASCII whitespace characters.  JS `\s`
  additionally matches some non-ASCII whitespace; those characters are
  neither `\w` nor ASCII whitespace, so our pipeline replaces them with a
  blank and splits there, while JS keeps them and splits there — the token
  lists produced are identical, so the model is extensionally faithful.
* `String.prototype.toLowerCase` is modelled by ASCII lowering
  (`Char.toLower`).  Non-ASCII letters differ only in characters that are
  not `\w` and hence are replaced by a blank in the very next step either
  way, so again the final token lists agree.
* `"a b".split(/\s+/)` yields an empty leading (resp. trailing) token when
  the string starts (resp. ends) with whitespace, and `"".split(/\s+/)` is
  `[""]`.  `splitWsAux` reproduces exactly that behaviour.
* JS truthiness of a string (`if (s)`) is `s ≠ ""`.
* JS number semantics: all quantities reaching `Math.round`/`max`/`min` in
  this program are either small exact integers, exact small-denominator
  rationals, or NaN; see `calculateATSScore` and `jsRound100` below.
-/

namespace SmartResume

/-- JS regex `\w` (no flags): ASCII letters, digits and the underscore. -/
def jsWordChar (c : Char) : Bool :=
  c.isAlphanum || c == '_'

/-- JS regex `\s`, restricted to the ASCII whitespace characters. -/
def jsSpaceChar (c : Char) : Bool :=
  c == ' ' || c == '\t' || c == '\n' || c == '\r' || c == '\x0b' || c == '\x0c'

/-- Worker for `jsSplitWs`.  `acc` is the reversed current token, `inRun` is
true while we are inside a whitespace run that has already emitted its
preceding token.  Faithful to JS `split(/\s+/)`, including the empty leading
and trailing tokens that JS produces when the string starts or ends with
whitespace (those tokens are removed downstream by the length filter). -/
def splitWsAux : List Char → List Char → Bool → List (List Char)
  | [], acc, _ => [acc.reverse]
  | c :: cs, acc, inRun =>
    if jsSpaceChar c then
      if inRun then splitWsAux cs acc inRun
      else acc.reverse :: splitWsAux cs [] true
    else splitWsAux cs (c :: acc) false

/-- JS `str.split(/\s+/)` on the character list of `str`. -/
def jsSplitWs (cs : List Char) : List (List Char) :=
  splitWsAux cs [] false

/-- Worker for `dedupFirst`: `seen` holds the elements already emitted. -/
def dedupFirstAux (seen : List String) : List String → List String
  | [] => []
  | w :: ws =>
    if seen.contains w then dedupFirstAux seen ws
    else w :: dedupFirstAux (w :: seen) ws

/-- Model of the JS idiom `arr.filter((w, i, arr) => arr.indexOf(w) === i)`:
an element is kept exactly when it has not occurred earlier in the array,
i.e. the first occurrence of every element survives, in order. -/
def dedupFirst (l : List String) : List String :=
  dedupFirstAux [] l

/-- The stop-word set `commonWords` of `extractKeywords` (source lines
299-333), in source order. -/
def commonWords : List String :=
  ["the", "and", "or", "but", "in", "on", "at", "to", "for", "of", "with",
   "by", "is", "are", "was", "were", "be", "been", "have", "has", "had",
   "do", "does", "did", "will", "would", "could", "should", "may", "might",
   "can", "must", "shall"]

/-- `ResumeAnalysisService.extractKeywords` (source lines 298-342):
lowercase, replace every character matching `[^\w\s]` by a blank, split on
whitespace runs, keep tokens of length above 2 that are not stop-words,
keep first occurrences only, truncate to 20. -/
def extractKeywords (text : String) : List String :=
  let replaced := (text.data.map Char.toLower).map
    (fun c => if !jsWordChar c && !jsSpaceChar c then ' ' else c)
  let words := (jsSplitWs replaced).map (fun cs => String.mk cs)
  (dedupFirst (words.filter (fun w => 2 < w.length && !commonWords.contains w))).take 20

/-- `PersonalInfo` (source lines 44-52). -/
structure PersonalInfo where
  fullName : String
  email : String
  phone : String
  location : String
  website : String
  linkedin : String
  summary : String

/-- `Experience` (source lines 54-62). -/
structure Experience where
  id : String
  company : String
  position : String
  startDate : String
  endDate : String
  current : Bool
  description : String

/-- `Education` (source lines 64-72); the optional `gpa?` field is an
`Option`. -/
structure Education where
  id : String
  institution : String
  degree : String
  field : String
  startDate : String
  endDate : String
  gpa : Option String

/-- `Skill` (source lines 74-78). -/
structure Skill where
  id : String
  name : String
  category : String

/-- `ResumeData` (source lines 80-85). -/
structure ResumeData where
  personalInfo : PersonalInfo
  experience : List Experience
  education : List Education
  skills : List Skill

/-- `AnalysisResult` (source lines 87-96).  The optional fields absent from
a given result are modelled as `[]`.  `score` is an `Option Nat`: `none`
models the JS `NaN` that `calculateATSScore` produces when `jobKeywords` is
empty; every other score this program produces is a non-negative integer. -/
structure AnalysisResult where
  type : String
  score : Option Nat
  suggestions : List String
  keywordMatches : List String := []
  missingKeywords : List String := []
  strengths : List String := []
  weaknesses : List String := []
  industryInsights : List String := []

/-- Does the character list contain an adjacent pair whose first character
satisfies `p` and whose second satisfies `q`?  This is exactly when a regex
such as `\d+%` (one-or-more `p`-run ending right before a `q`) matches. -/
def hasPairOf (p q : Char → Bool) : List Char → Bool
  | a :: b :: rest => (p a && q b) || hasPairOf p q (b :: rest)
  | _ => false

/-- JS `a.includes(b)`: `b` occurs in `a` as a contiguous substring. -/
def jsIncludes (a b : String) : Bool :=
  decide (b.data <:+: a.data)

/-- `Math.round((m / n) * 100)` for `0 ≤ m ≤ 20`, `1 ≤ n ≤ 20`, as exact
integer arithmetic: round-half-up of the rational `100 * m / n`.  This is
exact for the doubles the source computes: whenever `100 * m / n` is exactly
a half-integer its denominator is a power of two (`n ∈ {8, 16}` up to common
factors), so the double value is exact and `Math.round` rounds half up;
otherwise the rational is at distance at least `1/40` from every
half-integer, far above the rounding error of the two double operations. -/
def jsRound100 (m n : Nat) : Nat :=
  (200 * m + n) / (2 * n)

/-- `ResumeAnalysisService.calculateATSScore` (source lines 344-349).
When `jobKeywords` is empty, `matches` is empty too, so the source computes
`Math.round(0 / 0) = NaN`, and `Math.max(45, NaN) = NaN`,
`Math.min(95, NaN) = NaN`: the clamp does not guard the division.  `none`
models that NaN score. -/
def calculateATSScore (resumeKeywords jobKeywords : List String) : Option Nat :=
  let matched := resumeKeywords.filter (fun keyword =>
    jobKeywords.any (fun jobKeyword =>
      jsIncludes jobKeyword keyword || jsIncludes keyword jobKeyword))
  match jobKeywords with
  | [] => none
  | _ :: _ => some (min 95 (max 45 (jsRound100 matched.length jobKeywords.length)))

/-- `ResumeAnalysisService.generateATSSuggestions` (source lines 351-379).
The JS `push` sequence is modelled as list concatenation in push order. -/
def generateATSSuggestions (missingKeywords : List String) (resumeData : ResumeData) :
    List String :=
  ((if 0 < missingKeywords.length then
      ["Include these relevant keywords: " ++
        String.intercalate ", " (missingKeywords.take 5)]
    else []) ++
   (if resumeData.personalInfo.summary = "" then
      ["Add a professional summary section to highlight your key qualifications"]
    else []) ++
   (if resumeData.experience.length = 0 then
      ["Add work experience with quantifiable achievements"]
    else if resumeData.experience.any (fun exp => exp.description.data.any Char.isDigit) then
      []
    else
      ["Include specific numbers and metrics in your experience descriptions"]) ++
   (if resumeData.skills.length < 5 then
      ["Add more relevant technical and soft skills"]
    else []) ++
   ["Use action verbs to start bullet points (achieved, managed, developed, etc.)",
    "Ensure consistent formatting and remove any typos"]).take 6

/-- The alternation of the action-verb regex in
`generateGeneralSuggestions` (source line 402), in source order. -/
def actionVerbs : List String :=
  ["achieved", "managed", "developed", "led", "created", "implemented",
   "improved", "increased", "reduced", "streamlined"]

/-- The test `/^(achieved|...|streamlined)/i.test(description)`: the
description starts, case-insensitively, with one of the action verbs. -/
def actionVerbStart (s : String) : Bool :=
  actionVerbs.any (fun v => v.data.isPrefixOf (s.data.map Char.toLower))

/-- Sum of the experience description lengths, the numerator of the
`avgDescriptionLength` computation (source lines 395-396). -/
def totalDescLen (resumeData : ResumeData) : Nat :=
  (resumeData.experience.map (fun exp => exp.description.length)).sum

/-- `ResumeAnalysisService.generateGeneralSuggestions` (source lines
381-430).  The float comparison `sum / count < 150` is modelled as
`sum < 150 * count`; the two agree because when the rational `sum / count`
equals 150 exactly the double division is exact, and JS integer string
lengths are far too small for double rounding to cross an integer
boundary otherwise. -/
def generateGeneralSuggestions (resumeData : ResumeData) : List String :=
  ((if resumeData.personalInfo.summary = "" then
      ["Add a compelling professional summary that highlights your unique value proposition"]
    else if resumeData.personalInfo.summary.length < 100 then
      ["Expand your professional summary to better showcase your expertise"]
    else []) ++
   (if resumeData.experience.length = 0 then
      ["Add relevant work experience with specific achievements and responsibilities"]
    else
      (if totalDescLen resumeData < 150 * resumeData.experience.length then
         ["Provide more detailed descriptions of your accomplishments in each role"]
       else []) ++
      (if resumeData.experience.any (fun exp => actionVerbStart exp.description) then []
       else ["Start experience descriptions with strong action verbs"])) ++
   (if resumeData.education.length = 0 then
      ["Include your educational background and relevant certifications"]
    else []) ++
   (if resumeData.skills.length < 8 then
      ["Add more relevant skills, including both technical and soft skills"]
    else []) ++
   (if resumeData.personalInfo.linkedin = "" then
      ["Add your LinkedIn profile to increase professional credibility"]
    else []) ++
   ["Tailor your resume for each job application",
    "Keep your resume to 1-2 pages for optimal readability"]).take 6

/-- The resume text blob assembled at the start of `analyzeATS` (source
lines 436-441). -/
def resumeText (resumeData : ResumeData) : String :=
  String.intercalate " "
    ([resumeData.personalInfo.summary] ++
     resumeData.experience.map (fun exp =>
       exp.position ++ " " ++ exp.company ++ " " ++ exp.description) ++
     resumeData.education.map (fun edu =>
       edu.degree ++ " " ++ edu.field ++ " " ++ edu.institution) ++
     resumeData.skills.map (fun skill => skill.name))

/-- `ResumeAnalysisService.analyzeATS` (source lines 432-473), without the
simulated 2-second delay, which carries no functional contract.  Note the
two containment predicates transcribed verbatim from the source: both the
`keywordMatches` filter (line 447) and the `missingKeywords` filter (line
453) end in `keyword.includes(keyword)`, a keyword compared against itself,
rather than against the other side. -/
def analyzeATS (resumeData : ResumeData) (jobDescription : String) : AnalysisResult :=
  let resumeKeywords := extractKeywords (resumeText resumeData)
  let jobKeywords := extractKeywords jobDescription
  let keywordMatches := resumeKeywords.filter (fun keyword =>
    jobKeywords.any (fun jobKeyword =>
      jsIncludes jobKeyword keyword || jsIncludes keyword keyword))
  let missingKeywords := (jobKeywords.filter (fun keyword =>
    !(resumeKeywords.any (fun resumeKeyword =>
        jsIncludes resumeKeyword keyword || jsIncludes keyword keyword)))).take 8
  { type := "ats",
    score := calculateATSScore resumeKeywords jobKeywords,
    suggestions := generateATSSuggestions missingKeywords resumeData,
    keywordMatches := keywordMatches.take 10,
    missingKeywords := missingKeywords,
    industryInsights :=
      ["ATS systems scan for exact keyword matches",
       "Use standard section headings like \"Work Experience\" and \"Education\"",
       "Avoid images, graphics, and complex formatting",
       "Include both acronyms and full terms (e.g., \"AI\" and \"Artificial Intelligence\")"] }

/-- The regex test
`/\d+%|\$\d+|\d+\+|increased|decreased|improved|reduced/i.test(description)`
(source line 522): a digit immediately followed by `%`, a `$` immediately
followed by a digit, a digit immediately followed by `+`, or one of four
verbs, case-insensitively. -/
def quantRegexTest (s : String) : Bool :=
  let cs := s.data
  let low := cs.map Char.toLower
  hasPairOf Char.isDigit (fun c => c == '%') cs ||
  hasPairOf (fun c => c == '$') Char.isDigit cs ||
  hasPairOf Char.isDigit (fun c => c == '+') cs ||
  jsIncludes (String.mk low) "increased" || jsIncludes (String.mk low) "decreased" ||
  jsIncludes (String.mk low) "improved" || jsIncludes (String.mk low) "reduced"

/-- The pre-clamp score accumulated by `analyzeGeneral` (source lines
479-529): base 60 plus the additive bonuses, in source order. -/
def generalRawScore (resumeData : ResumeData) : Nat :=
  60 +
  (if resumeData.personalInfo.summary ≠ "" ∧
      100 < resumeData.personalInfo.summary.length then 10 else 0) +
  (if 2 ≤ resumeData.experience.length then 15
   else if resumeData.experience.length = 1 then 8 else 0) +
  (if 0 < resumeData.education.length then 10 else 0) +
  (if 8 ≤ resumeData.skills.length then 10
   else if 5 ≤ resumeData.skills.length then 5 else 0) +
  (if resumeData.personalInfo.linkedin ≠ "" then 5 else 0) +
  (if resumeData.experience.any (fun exp => quantRegexTest exp.description) then 10 else 0)

/-- The `strengths` list accumulated by `analyzeGeneral`, in push order. -/
def generalStrengths (resumeData : ResumeData) : List String :=
  (if resumeData.personalInfo.summary ≠ "" ∧
      100 < resumeData.personalInfo.summary.length then
     ["Strong professional summary"] else []) ++
  (if 2 ≤ resumeData.experience.length then
     ["Good work experience history"] else []) ++
  (if 0 < resumeData.education.length then
     ["Educational background included"] else []) ++
  (if 8 ≤ resumeData.skills.length then
     ["Comprehensive skills section"] else []) ++
  (if resumeData.personalInfo.linkedin ≠ "" then
     ["Professional online presence"] else []) ++
  (if resumeData.experience.any (fun exp => quantRegexTest exp.description) then
     ["Quantifiable achievements mentioned"] else [])

/-- The `weaknesses` list accumulated by `analyzeGeneral`, in push order.
The LinkedIn check pushes no weakness in the source. -/
def generalWeaknesses (resumeData : ResumeData) : List String :=
  (if resumeData.personalInfo.summary ≠ "" ∧
      100 < resumeData.personalInfo.summary.length then []
   else ["Missing or weak professional summary"]) ++
  (if 2 ≤ resumeData.experience.length then []
   else if resumeData.experience.length = 1 then []
   else ["Limited work experience"]) ++
  (if 0 < resumeData.education.length then []
   else ["No educational information"]) ++
  (if 8 ≤ resumeData.skills.length then []
   else if 5 ≤ resumeData.skills.length then []
   else ["Limited skills listed"]) ++
  (if resumeData.experience.any (fun exp => quantRegexTest exp.description) then []
   else ["Lacks quantifiable results"])

/-- `ResumeAnalysisService.analyzeGeneral` (source lines 475-546), without
the simulated 1.5-second delay. -/
def analyzeGeneral (resumeData : ResumeData) : AnalysisResult :=
  { type := "general",
    score := some (min 95 (max 35 (generalRawScore resumeData))),
    suggestions := generateGeneralSuggestions resumeData,
    strengths := generalStrengths resumeData,
    weaknesses := generalWeaknesses resumeData,
    industryInsights :=
      ["Recruiters spend an average of 6 seconds reviewing each resume",
       "Quantified achievements are 40% more likely to get attention",
       "Tailored resumes have 2x higher callback rates",
       "Professional formatting increases perceived competence by 30%"] }

/-! ### Definitions following the specification's words

These definitions are written from the sentences of the claims, to be
compared with the source-derived definitions above.  Each doc comment says
which claim it renders. -/

/-- C5's description of the extractor: "every non-alphanumeric character
replaced by whitespace", then the same split/filter/dedup/truncate steps.
Differs from the source in that the source regex `[^\w\s]` keeps the
underscore (a non-alphanumeric character) as a word character. -/
def extractKeywordsClaim (text : String) : List String :=
  let replaced := (text.data.map Char.toLower).map
    (fun c => if c.isAlphanum then c else ' ')
  let words := (jsSplitWs replaced).map (fun cs => String.mk cs)
  (dedupFirst (words.filter (fun w => 2 < w.length && !commonWords.contains w))).take 20

/-- First-occurrence deduplication as C5 words it ("duplicates removed,
first occurrence kept"): keep the head, delete its duplicates from the tail,
recurse. -/
def keepFirst : List String → List String
  | [] => []
  | w :: ws => w :: keepFirst (ws.filter (fun x => x != w))
termination_by l => l.length
decreasing_by
  simp only [List.length_cons]
  exact Nat.lt_succ_of_le (List.length_filter_le _ _)

/-- C5 amended: the extractor pipeline with the character class corrected to
"ASCII alphanumeric or underscore" (the JS `\w` class); whitespace is kept
and split on. -/
def extractKeywordsAmended (text : String) : List String :=
  let replaced := (text.data.map Char.toLower).map
    (fun c => if c.isAlphanum || c == '_' || jsSpaceChar c then c else ' ')
  let words := (jsSplitWs replaced).map (fun cs => String.mk cs)
  (keepFirst (words.filter (fun w => 2 < w.length && !commonWords.contains w))).take 20

/-- C3's match count: resume keywords `k` such that some job keyword `j`
satisfies "`k` is a substring of `j` or `j` is a substring of `k`". -/
def matchCountClaim (r : ResumeData) (jd : String) : Nat :=
  ((extractKeywords (resumeText r)).filter (fun k =>
      decide (∃ j ∈ extractKeywords jd,
        k.data <:+: j.data ∨ j.data <:+: k.data))).length

/-- C6's description of `keywordMatches`: the resume keywords satisfying the
same containment test as the score, capped to 10. -/
def keywordMatchesClaim (r : ResumeData) (jd : String) : List String :=
  ((extractKeywords (resumeText r)).filter (fun k =>
      decide (∃ j ∈ extractKeywords jd,
        k.data <:+: j.data ∨ j.data <:+: k.data))).take 10

/-- C4's score formula as claimed: summary bonus for "at least 100
characters".  The source requires strictly more than 100. -/
def generalScoreClaim (r : ResumeData) : Nat :=
  min 95 (max 35 (60 +
    (if r.personalInfo.summary ≠ "" ∧ 100 ≤ r.personalInfo.summary.length
     then 10 else 0) +
    (if 2 ≤ r.experience.length then 15
     else if r.experience.length = 1 then 8 else 0) +
    (if 0 < r.education.length then 10 else 0) +
    (if 8 ≤ r.skills.length then 10
     else if 5 ≤ r.skills.length then 5 else 0) +
    (if r.personalInfo.linkedin ≠ "" then 5 else 0) +
    (if ∃ exp ∈ r.experience, quantRegexTest exp.description = true
     then 10 else 0)))

/-- C4 amended: the same additive formula with the summary bonus requiring
strictly more than 100 characters, as the source does. -/
def generalScoreAmended (r : ResumeData) : Nat :=
  min 95 (max 35 (60 +
    (if 100 < r.personalInfo.summary.length then 10 else 0) +
    (if 2 ≤ r.experience.length then 15
     else if r.experience.length = 1 then 8 else 0) +
    (if 0 < r.education.length then 10 else 0) +
    (if 8 ≤ r.skills.length then 10
     else if 5 ≤ r.skills.length then 5 else 0) +
    (if r.personalInfo.linkedin ≠ "" then 5 else 0) +
    (if ∃ exp ∈ r.experience, quantRegexTest exp.description = true
     then 10 else 0)))

/-! ### Concrete inputs used by counterexamples and witnesses -/

/-- A `PersonalInfo` with every field empty. -/
def emptyPersonalInfo : PersonalInfo :=
  { fullName := "", email := "", phone := "", location := "", website := "",
    linkedin := "", summary := "" }

/-- The empty `ResumeData`: no summary, no experience, no education, no
skills. -/
def emptyResume : ResumeData :=
  { personalInfo := emptyPersonalInfo, experience := [], education := [],
    skills := [] }

/-- A resume whose only content is the single skill "Python". -/
def pyResume : ResumeData :=
  { personalInfo := emptyPersonalInfo, experience := [], education := [],
    skills := [{ id := "1", name := "Python", category := "Technical" }] }

/-- An otherwise empty resume whose summary is exactly 100 characters. -/
def resume100 : ResumeData :=
  { personalInfo := { emptyPersonalInfo with
      summary := String.mk (List.replicate 100 'a') },
    experience := [], education := [], skills := [] }

/-! ### Helper lemmas -/

/-- JS `k.includes(k)` is always true: the self-comparison at the heart of
the degenerate containment tests in `analyzeATS`. -/
theorem jsIncludes_self (s : String) : jsIncludes s s = true :=
  decide_eq_true List.infix_rfl

/-- The source's seen-set deduplication agrees with the
delete-later-duplicates description, relative to any initial seen-set. -/
theorem dedupFirstAux_eq (l : List String) :
    ∀ seen, dedupFirstAux seen l = keepFirst (l.filter (fun x => !seen.contains x)) := by
  induction l with
  | nil => intro seen; simp [dedupFirstAux, keepFirst]
  | cons x xs ih =>
    intro seen
    cases hx : seen.contains x with
    | true =>
      simp only [dedupFirstAux, hx, if_true, List.filter_cons, Bool.not_true,
        Bool.false_eq_true, if_false]
      exact ih seen
    | false =>
      simp only [dedupFirstAux, hx, Bool.false_eq_true, if_false, List.filter_cons,
        Bool.not_false, if_true]
      rw [ih (x :: seen)]
      simp only [keepFirst]
      congr 1
      rw [List.filter_filter]
      apply congrArg
      apply List.filter_congr
      intro a _
      simp [List.contains_cons, Bool.not_or, Bool.and_comm, bne, Bool.beq_eq_decide_eq]

/-- Seen-set deduplication equals the delete-later-duplicates description. -/
theorem dedupFirst_eq_keepFirst (l : List String) : dedupFirst l = keepFirst l := by
  rw [dedupFirst, dedupFirstAux_eq]
  congr 1
  exact List.filter_eq_self.mpr (fun a _ => by simp)

/-- The source extractor equals its amended spec-side description: the only
differences are the spelling of the character class and the style of the
first-occurrence deduplication. -/
theorem extract_eq_amended (t : String) : extractKeywords t = extractKeywordsAmended t := by
  have hchar : (fun c => if !jsWordChar c && !jsSpaceChar c then ' ' else c) =
      (fun c => if c.isAlphanum || c == '_' || jsSpaceChar c then c else ' ') := by
    funext c
    simp only [jsWordChar]
    rcases Bool.eq_false_or_eq_true c.isAlphanum with h1 | h1 <;>
      rcases Bool.eq_false_or_eq_true (c == '_') with h2 | h2 <;>
      rcases Bool.eq_false_or_eq_true (jsSpaceChar c) with h3 | h3 <;>
      simp [h1, h2, h3]
  simp only [extractKeywords, extractKeywordsAmended, hchar, dedupFirst_eq_keepFirst]

/-- On a non-empty job-keyword list, `calculateATSScore` returns a numeric
score clamped into `[45, 95]`. -/
theorem calculateATSScore_cons_bounds (rk : List String) (j : String) (js : List String) :
    ∃ s, calculateATSScore rk (j :: js) = some s ∧ 45 ≤ s ∧ s ≤ 95 := by
  refine ⟨_, rfl, ?_, ?_⟩ <;> omega

/-- On a non-empty job-keyword list, `calculateATSScore` computes the
round-then-clamp formula over the substring-containment match count. -/
theorem calculateATSScore_eq_claim (rk jk : List String) (h : jk ≠ []) :
    calculateATSScore rk jk = some (min 95 (max 45 (jsRound100
      ((rk.filter (fun k => decide (∃ j ∈ jk,
          k.data <:+: j.data ∨ j.data <:+: k.data))).length)
      jk.length))) := by
  obtain ⟨j, js, rfl⟩ := List.exists_cons_of_ne_nil h
  have hpred : (fun k : String => (j :: js).any fun jw => jsIncludes jw k || jsIncludes k jw) =
      (fun k : String => decide (∃ jw ∈ j :: js,
        k.data <:+: jw.data ∨ jw.data <:+: k.data)) := by
    funext k
    rw [Bool.eq_iff_iff]
    simp [jsIncludes, List.any_eq_true]
  simp only [calculateATSScore]
  rw [hpred]

/-- Lists truncated with `take 6` have length at most 6. -/
theorem length_take_six (l : List String) : (l.take 6).length ≤ 6 :=
  List.length_take_le 6 l

/-! ### Claim theorems -/

/-- C1, counterexample: `"the"` is a non-empty job description, yet the ATS
score of the empty resume against it is `none` (the JS NaN), not a number
in `[45, 95]`: its extraction yields zero job keywords and the `0 / 0`
division is not guarded by the clamp floor of 45, because `Math.max` and
`Math.min` propagate NaN. -/
theorem c1_counterexample :
    ("the" : String) ≠ "" ∧ (analyzeATS emptyResume "the").score = none := by decide

/-- C1, amended: for every resume and every job description whose keyword
extraction yields at least one keyword, `analyzeATS` returns a well-formed
numeric score in `[45, 95]`; with zero job keywords the score is NaN
instead. -/
theorem c1_ats_score_range (r : ResumeData) (jd : String) (h : extractKeywords jd ≠ []) :
    ∃ s, (analyzeATS r jd).score = some s ∧ 45 ≤ s ∧ s ≤ 95 := by
  obtain ⟨j, js, hjs⟩ := List.exists_cons_of_ne_nil h
  obtain ⟨s, hs, h1, h2⟩ := calculateATSScore_cons_bounds (extractKeywords (resumeText r)) j js
  refine ⟨s, ?_, h1, h2⟩
  have hscore : (analyzeATS r jd).score =
      calculateATSScore (extractKeywords (resumeText r)) (extractKeywords jd) := rfl
  rw [hscore, hjs, hs]

/-- C1, witness: the amended range theorem applied to the one-skill resume
and the job description `"python developer"`. -/
theorem c1_witness :
    extractKeywords "python developer" ≠ [] ∧
    (∃ s, (analyzeATS pyResume "python developer").score = some s ∧ 45 ≤ s ∧ s ≤ 95) :=
  ⟨by decide, c1_ats_score_range pyResume "python developer" (by decide)⟩

/-- C2, counterexample: on the empty resume `analyzeGeneral` scores 60, not
the claimed clamp floor of 35 — the scoring only adds non-negative deltas
to the base 60, so the floor is never reached. -/
theorem c2_counterexample :
    (analyzeGeneral emptyResume).score = some 60 ∧
    (analyzeGeneral emptyResume).score ≠ some 35 := by decide

/-- C2, amended: on the empty resume `analyzeGeneral` returns the base
score 60 (the clamp floor of 35 is not binding), and its weaknesses list has
exactly one entry for each of the five structural gaps: summary, experience,
education, skills, quantifiable results. -/
theorem c2_empty_resume :
    (analyzeGeneral emptyResume).score = some 60 ∧
    (analyzeGeneral emptyResume).weaknesses =
      ["Missing or weak professional summary", "Limited work experience",
       "No educational information", "Limited skills listed",
       "Lacks quantifiable results"] := by decide

/-- C3: whenever job-keyword extraction is non-empty, the ATS score is
`round(matchCount / |jobKeywords| * 100)` clamped to `[45, 95]`, where
`matchCount` counts extracted resume keywords `k` such that some job
keyword `j` has `k` a substring of `j` or `j` a substring of `k`. -/
theorem c3_ats_score_formula (r : ResumeData) (jd : String) (h : extractKeywords jd ≠ []) :
    (analyzeATS r jd).score = some (min 95 (max 45 (jsRound100 (matchCountClaim r jd)
      (extractKeywords jd).length))) := by
  have hscore : (analyzeATS r jd).score =
      calculateATSScore (extractKeywords (resumeText r)) (extractKeywords jd) := rfl
  rw [hscore, calculateATSScore_eq_claim _ _ h]
  simp only [matchCountClaim]

/-- C3, witness: the score formula instantiated on the one-skill resume and
the job description `"python developer"`. -/
theorem c3_witness :
    extractKeywords "python developer" ≠ [] ∧
    (analyzeATS pyResume "python developer").score =
      some (min 95 (max 45 (jsRound100 (matchCountClaim pyResume "python developer")
        (extractKeywords "python developer").length))) :=
  ⟨by decide, c3_ats_score_formula pyResume "python developer" (by decide)⟩

/-- C4, counterexample: a summary of exactly 100 characters earns no bonus
in the source (`length > 100`), so the claimed formula ("at least 100
characters", score 70 here) disagrees with `analyzeGeneral` (score 60). -/
theorem c4_counterexample :
    resume100.personalInfo.summary.length = 100 ∧
    generalScoreClaim resume100 = 70 ∧
    (analyzeGeneral resume100).score = some 60 := by decide

/-- C4, amended: the general score is 60 plus exactly the claimed additive
deltas, with the summary bonus requiring strictly more than 100 characters,
clamped to `[35, 95]`. -/
theorem c4_general_score_formula (r : ResumeData) :
    (analyzeGeneral r).score = some (generalScoreAmended r) := by
  have hsum : (if r.personalInfo.summary ≠ "" ∧ 100 < r.personalInfo.summary.length
      then (10 : Nat) else 0) =
      if 100 < r.personalInfo.summary.length then 10 else 0 := by
    refine if_congr ⟨fun hc => hc.2, fun hc => ⟨?_, hc⟩⟩ rfl rfl
    intro he
    rw [he] at hc
    exact absurd hc (by decide)
  have hq : (if r.experience.any (fun exp => quantRegexTest exp.description)
      then (10 : Nat) else 0) =
      if ∃ exp ∈ r.experience, quantRegexTest exp.description = true then 10 else 0 :=
    if_congr List.any_eq_true rfl rfl
  show some (min 95 (max 35 (generalRawScore r))) = some (generalScoreAmended r)
  unfold generalRawScore generalScoreAmended
  rw [hsum, hq]

/-- C5, counterexample: the underscore is non-alphanumeric, but the source
regex `[^\w\s]` keeps it, so `extractKeywords "a_b"` is `["a_b"]` while the
claimed replace-every-non-alphanumeric pipeline yields `[]` (the tokens
`a` and `b` fail the length filter). -/
theorem c5_counterexample :
    extractKeywords "a_b" = ["a_b"] ∧ extractKeywordsClaim "a_b" = [] := by decide

/-- C5, amended: the extractor lowercases, replaces every character outside
the JS `\w` class (ASCII letters, digits, underscore) and whitespace by
whitespace, splits on whitespace runs, filters to tokens longer than 2 that
are not stop-words, keeps first occurrences, and truncates to 20; the empty
string yields the empty sequence, and
`extractKeywords "cat dog cat bird" = ["cat", "dog", "bird"]`. -/
theorem c5_extract_keywords :
    (∀ t, extractKeywords t = extractKeywordsAmended t) ∧
    extractKeywords "" = [] ∧
    extractKeywords "cat dog cat bird" = ["cat", "dog", "bird"] :=
  ⟨extract_eq_amended, by decide, by decide⟩

/-- C6, counterexample: with resume keyword `python` and job keyword
`java`, neither contains the other, so the claimed containment-filtered
matches are empty — yet the source reports `["python"]`, because its filter
ends in the always-true `keyword.includes(keyword)`. -/
theorem c6_counterexample :
    (analyzeATS pyResume "java").keywordMatches = ["python"] ∧
    keywordMatchesClaim pyResume "java" = [] := by decide

/-- C6, amended: `keywordMatches` is degenerate, not containment-filtered:
it is the first 10 extracted resume keywords whenever at least one job
keyword exists, and empty otherwise. -/
theorem c6_keyword_matches (r : ResumeData) (jd : String) :
    (analyzeATS r jd).keywordMatches =
      if extractKeywords jd = [] then []
      else (extractKeywords (resumeText r)).take 10 := by
  have hkm : (analyzeATS r jd).keywordMatches =
      ((extractKeywords (resumeText r)).filter (fun keyword =>
        (extractKeywords jd).any (fun jobKeyword =>
          jsIncludes jobKeyword keyword || jsIncludes keyword keyword))).take 10 := rfl
  rw [hkm]
  by_cases hjk : extractKeywords jd = []
  · rw [hjk, if_pos rfl]
    simp
  · rw [if_neg hjk]
    obtain ⟨j, js, hjs⟩ := List.exists_cons_of_ne_nil hjk
    rw [hjs]
    congr 1
    exact List.filter_eq_self.mpr (fun a _ => by simp [jsIncludes_self])

/-- C7: the missing-keyword filter ends in the always-true
`keyword.includes(keyword)`, so whenever the resume text extracts at least
one keyword, every job keyword is considered present and `missingKeywords`
is empty. -/
theorem c7_missing_degenerate (r : ResumeData) (jd : String)
    (h : extractKeywords (resumeText r) ≠ []) :
    (analyzeATS r jd).missingKeywords = [] := by
  obtain ⟨x, xs, hx⟩ := List.exists_cons_of_ne_nil h
  have hmk : (analyzeATS r jd).missingKeywords =
      ((extractKeywords jd).filter (fun keyword =>
        !((extractKeywords (resumeText r)).any (fun resumeKeyword =>
          jsIncludes resumeKeyword keyword || jsIncludes keyword keyword)))).take 8 := rfl
  rw [hmk, hx]
  simp [jsIncludes_self]

/-- C7, witness: the degenerate missing-keyword theorem applied to the
one-skill resume, whose text extracts the keyword `python`. -/
theorem c7_witness :
    extractKeywords (resumeText pyResume) ≠ [] ∧
    (analyzeATS pyResume "java").missingKeywords = [] :=
  ⟨by decide, c7_missing_degenerate pyResume "java" (by decide)⟩

/-- C8: for every input, both analyzers return at most 6 suggestions, and
their industry-insight lists are exactly the 4 constant entries. -/
theorem c8_capped_lists (r : ResumeData) (jd : String) :
    (analyzeGeneral r).suggestions.length ≤ 6 ∧
    (analyzeATS r jd).suggestions.length ≤ 6 ∧
    (analyzeGeneral r).industryInsights.length = 4 ∧
    (analyzeATS r jd).industryInsights.length = 4 := by
  refine ⟨?_, ?_, rfl, rfl⟩
  · exact length_take_six _
  · exact length_take_six _

/-- C9: for every resume, the general score is a number in `[35, 95]`. -/
theorem c9_general_score_range (r : ResumeData) :
    ∃ s, (analyzeGeneral r).score = some s ∧ 35 ≤ s ∧ s ≤ 95 :=
  ⟨min 95 (max 35 (generalRawScore r)), rfl, by omega, by omega⟩

/-- C10: for every resume, the general score in fact lies in `[60, 95]`:
the pre-clamp score is 60 plus non-negative deltas, so the documented lower
clamp of 35 is never binding. -/
theorem c10_general_score_floor (r : ResumeData) :
    ∃ s, (analyzeGeneral r).score = some s ∧ 60 ≤ s ∧ s ≤ 95 := by
  have h60 : 60 ≤ generalRawScore r := by
    unfold generalRawScore
    omega
  exact ⟨min 95 (max 35 (generalRawScore r)), rfl, by omega, by omega⟩

end SmartResume
